import Mathlib

/-!
Verification development for the `MathAI` word-problem reasoning engine of
`Calculator/python-version/calculator.py`.

The engine is a deterministic pipeline over in-memory strings and numbers:
parse (lowercase, strip, extract decimal literals) → classify (ordered
keyword rules) → dispatch to one of seven solvers → append to a session
history on success.  Python `float` values arising here are decimal
literals extracted from the input combined with `+ - * /`; they are
embedded as exact rationals (`PyNum`).  A Python exception escaping a
solver is embedded as `Except.error` carrying the exception text.
-/

/-- Exact rational standing in for a Python `float`.  All numeric values in
the pipeline are decimal literals combined by field operations, so the
rational value is exact wherever the binary `float` is (all concrete inputs
evaluated below); operations keep the fraction gcd-reduced with a
nonnegative-power-of-ten-friendly positive denominator. -/
structure PyNum where
  num : Int
  den : Nat
deriving DecidableEq, Repr

/-- Reduce a fraction by the gcd of numerator and denominator. -/
def PyNum.norm (q : PyNum) : PyNum :=
  let g := Nat.gcd q.num.natAbs q.den
  if g ≤ 1 then q else ⟨q.num / (g : Int), q.den / g⟩

/-- Build the reduced fraction `num / den`. -/
def qn (num : Int) (den : Nat) : PyNum :=
  PyNum.norm ⟨num, den⟩

def PyNum.add (a b : PyNum) : PyNum :=
  qn (a.num * (b.den : Int) + b.num * (a.den : Int)) (a.den * b.den)

def PyNum.sub (a b : PyNum) : PyNum :=
  qn (a.num * (b.den : Int) - b.num * (a.den : Int)) (a.den * b.den)

def PyNum.mul (a b : PyNum) : PyNum :=
  qn (a.num * b.num) (a.den * b.den)

/-- Division; callers in the model guard the divisor, mirroring Python
raising `ZeroDivisionError` rather than producing a value. -/
def PyNum.div (a b : PyNum) : PyNum :=
  if b.num < 0 then qn (-(a.num * (b.den : Int))) (a.den * b.num.natAbs)
  else qn (a.num * (b.den : Int)) (a.den * b.num.natAbs)

def PyNum.neg (a : PyNum) : PyNum :=
  ⟨-a.num, a.den⟩

/-- Strict order on the embedded rationals (denominators are positive). -/
def PyNum.lt (a b : PyNum) : Bool :=
  a.num * (b.den : Int) < b.num * (a.den : Int)

def PyNum.isZero (a : PyNum) : Bool :=
  a.num == 0

instance : Add PyNum := ⟨PyNum.add⟩

instance : Sub PyNum := ⟨PyNum.sub⟩

instance : Mul PyNum := ⟨PyNum.mul⟩

instance : Div PyNum := ⟨PyNum.div⟩

instance : Neg PyNum := ⟨PyNum.neg⟩

instance : OfNat PyNum n := ⟨⟨(n : Int), 1⟩⟩

/-- `listStartsWith needle hay` : does `hay` begin with `needle`? -/
def listStartsWith : List Char → List Char → Bool
  | [], _ => true
  | _ :: _, [] => false
  | a :: as, b :: bs => a == b && listStartsWith as bs

/-- Occurrence of `needle` anywhere in `hay` (Python `needle in hay`). -/
def listContainsSub (needle : List Char) : List Char → Bool
  | [] => needle.isEmpty
  | c :: cs => listStartsWith needle (c :: cs) || listContainsSub needle cs

/-- Python's substring test `needle in hay`. -/
def substr (needle hay : String) : Bool :=
  listContainsSub needle.data hay.data

/-- Python `any(w in hay for w in ws)`. -/
def containsAny (ws : List String) (hay : String) : Bool :=
  ws.any fun w => substr w hay

def stripLeft : List Char → List Char
  | [] => []
  | c :: cs => if c.isWhitespace then stripLeft cs else c :: cs

/-- Python `str.strip()`. -/
def pyStrip (s : String) : String :=
  ⟨(stripLeft (stripLeft s.data.reverse).reverse)⟩

/-- Python `str.lower()` (ASCII case, which is all the engine meets). -/
def pyLower (s : String) : String :=
  ⟨s.data.map Char.toLower⟩

/-- One step of `re.findall(r'\d+\.?\d*', text)`: a running state holds the
(reversed) digits of the token being scanned and whether its optional dot
was consumed. -/
def scanNumsAux : List Char → Option (List Char × Bool) → List (List Char)
  | [], none => []
  | [], some (acc, _) => [acc.reverse]
  | c :: cs, none =>
    if c.isDigit then scanNumsAux cs (some ([c], false)) else scanNumsAux cs none
  | c :: cs, some (acc, seenDot) =>
    if c.isDigit then scanNumsAux cs (some (c :: acc, seenDot))
    else if c == '.' && !seenDot then scanNumsAux cs (some ('.' :: acc, true))
    else acc.reverse :: scanNumsAux cs none

/-- `re.findall(r'\d+\.?\d*', s)` — the decimal-literal tokens of `s`,
left to right. -/
def scanNums (s : String) : List (List Char) :=
  scanNumsAux s.data none

def natOfDigits (cs : List Char) : Nat :=
  cs.foldl (fun a c => a * 10 + (c.toNat - 48)) 0

/-- Python `float(token)` on a `\d+\.?\d*` token, as an exact rational. -/
def parseNumTok (cs : List Char) : PyNum :=
  let intPart := cs.takeWhile (fun c => c != '.')
  let fracPart := (cs.dropWhile (fun c => c != '.')).drop 1
  qn ((natOfDigits intPart * 10 ^ fracPart.length + natOfDigits fracPart : Nat) : Int)
    (10 ^ fracPart.length)

/-- `MathAI.operation_keywords` (source lines 34-39). -/
def operation_keywords : List (String × List String) :=
  [("addition", ["plus", "add", "sum", "total", "combined", "altogether", "more than", "increase"]),
   ("subtraction", ["minus", "subtract", "difference", "less than", "decrease", "remove", "left", "remaining"]),
   ("multiplication", ["times", "multiply", "product", "of", "per", "at", "each", "twice", "double", "triple"]),
   ("division", ["divide", "divided by", "split", "share", "per", "each", "half", "third"])]

/-- `MathAI.comparison_keywords` (source lines 41-48), in insertion order. -/
def comparison_keywords : List (String × PyNum) :=
  [("twice", 2), ("double", 2), ("triple", 3), ("half", qn 1 2), ("third", qn 1 3), ("quarter", qn 1 4)]

/-- The dict built by `MathAI.parse_input`. -/
structure ParsedQuery where
  original : String
  cleaned : String
  numbers : List PyNum
  keywords : List (String × String)
  has_variable : Bool
deriving DecidableEq, Repr

/-- `MathAI.parse_input` (source lines 104-133): lowercase and strip the
text, extract decimal literals from the raw text, detect variables by
substring search, collect operation keyword hits. -/
def parse_input (query : String) : ParsedQuery :=
  let cleaned := pyStrip (pyLower query)
  { original := query
    cleaned := cleaned
    numbers := (scanNums query).map parseNumTok
    keywords :=
      (operation_keywords.map fun p =>
        (p.2.filter fun k => substr k cleaned).map fun k => (k, p.1)).flatten
    has_variable := containsAny ["x", "y", "unknown", "what number", "how many", "how much"] cleaned }

/-- `MathAI.classify_problem` (source lines 139-181): ordered keyword rules,
first match wins. -/
def classify_problem (p : ParsedQuery) : String × PyNum :=
  let query := p.cleaned
  if containsAny ["then", "after that", "first", "next", "finally"] query then
    ("multi_step", qn 95 100)
  else if containsAny ["%", "percent", "percentage", "discount", "tax", "tip"] query then
    ("percentage", qn 95 100)
  else if p.has_variable && substr "=" query then
    ("equation", qn 95 100)
  else if containsAny ["twice", "double", "triple", "half", "times as much", "more than", "less than"] query then
    ("comparison", qn 90 100)
  else if containsAny ["per", "an hour", "per hour", "each", "at"] query &&
      containsAny ["work", "worked", "earn", "make", "buy", "cost", "speed", "dollar", "$"] query then
    ("rate", qn 92 100)
  else if containsAny ["average", "mean", "median"] query then
    ("average", qn 95 100)
  else
    ("arithmetic", if 2 ≤ p.numbers.length then qn 70 100 else qn 50 100)

def natStrAux : Nat → Nat → List Char
  | 0, _ => []
  | f + 1, n => if n = 0 then [] else natStrAux f (n / 10) ++ [Char.ofNat (48 + n % 10)]

/-- Decimal digits of a natural number. -/
def natStr (n : Nat) : String :=
  if n = 0 then "0" else ⟨natStrAux (n + 1) n⟩

def intStr (i : Int) : String :=
  if i < 0 then "-" ++ natStr i.natAbs else natStr i.natAbs

/-- Long-division digits of `r / d` after the decimal point (`fuel` bounds
the count; the pipeline only ever prints values whose expansion
terminates well within it). -/
def fracDigitsAux : Nat → Nat → Nat → List Char
  | 0, _, _ => []
  | f + 1, r, d =>
    if r = 0 then [] else Char.ofNat (48 + (r * 10) / d) :: fracDigitsAux f ((r * 10) % d) d

/-- Python `str(float_value)`.  Exact for values with a terminating decimal
expansion of at most 17 digits, which covers every value the theorems below
print; longer expansions are truncated (Python would switch to its
shortest-round-trip form there). -/
def pyFloatStr (q : PyNum) : String :=
  let sign := if q.num < 0 then "-" else ""
  let n := q.num.natAbs
  let frac := fracDigitsAux 17 (n % q.den) q.den
  sign ++ natStr (n / q.den) ++ "." ++ (if frac.isEmpty then "0" else ⟨frac⟩)

/-- Insert thousands separators into a reversed digit list. -/
def commaRev : List Char → Nat → List Char
  | [], _ => []
  | [c], _ => [c]
  | c :: cs, k => if (k + 1) % 3 == 0 then c :: ',' :: commaRev cs (k + 1) else c :: commaRev cs (k + 1)

/-- `floor(q * 100 + 1/2)`: the two-decimal rounding used by the currency
format (ties differ from binary-float round-half-even only at exact
midpoints, which no theorem below evaluates). -/
def centsRound (q : PyNum) : Int :=
  Int.fdiv (q.num * 200 + (q.den : Int)) ((q.den : Int) * 2)

/-- Python `f"{q:,.2f}"`. -/
def moneyStr (q : PyNum) : String :=
  let m := centsRound q
  let n := m.natAbs
  let ip := n / 100
  let fp := n % 100
  (if m < 0 then "-" else "") ++ (⟨(commaRev (natStr ip).data.reverse 0).reverse⟩ : String) ++
    "." ++ (if fp < 10 then "0" ++ natStr fp else natStr fp)

/-- `floor(q * 100 + 1/2)` as a percentage figure for `f"{q:.0%}"`. -/
def pctRound (q : PyNum) : Nat :=
  (centsRound q).toNat

/-- The low-confidence suffix appended by `process_query` (source line 83). -/
def confNote (conf : PyNum) : String :=
  "\n\n(Confidence: " ++ natStr (pctRound conf) ++ "% - If incorrect, try rephrasing)"

/-- SymPy printing of an exact rational solution (`str(Integer)` or
`str(Rational)`). -/
def ratStr (q : PyNum) : String :=
  if q.den == 1 then intStr q.num else intStr q.num ++ "/" ++ natStr q.den

/-- `MathAI.solve_rate_problem` (source lines 187-228).  Explanation strings
throughout the solvers are abbreviated branch-distinguishing text; no
theorem below reads explanation contents, only result texts, success flags
and the session log. -/
def solve_rate_problem (p : ParsedQuery) : String × String :=
  let numbers := p.numbers
  let query := p.cleaned
  if numbers.length < 2 then
    ("Error", "Need at least 2 numbers for rate problems (rate and quantity)")
  else
    let rate := numbers.getD 0 0
    let quantity := numbers.getD 1 0
    let result := rate * quantity
    if substr "$" p.original || substr "dollar" query then
      ("$" ++ moneyStr result, "RATE PROBLEM SOLVER: Total = Rate x Quantity (currency)")
    else
      (pyFloatStr result, "RATE PROBLEM SOLVER: Total = Rate x Quantity")

/-- `MathAI.solve_comparison_problem` (source lines 234-272): first matching
multiplier-table keyword (in table order, only when numbers were extracted)
scales `numbers[0]`; otherwise explicit `more than` / `less than` phrases
take `numbers[1]` as base and `numbers[0]` as delta; otherwise `Error`. -/
def solve_comparison_problem (p : ParsedQuery) : String × String :=
  let query := p.cleaned
  let numbers := p.numbers
  match comparison_keywords.find? (fun kv => substr kv.1 query && !numbers.isEmpty) with
  | some kv =>
    (pyFloatStr (numbers.getD 0 0 * kv.2), "COMPARISON PROBLEM SOLVER: multiplier table")
  | none =>
    if substr "more than" query && decide (2 ≤ numbers.length) then
      (pyFloatStr (numbers.getD 1 0 + numbers.getD 0 0), "COMPARISON PROBLEM SOLVER: more than")
    else if substr "less than" query && decide (2 ≤ numbers.length) then
      (pyFloatStr (numbers.getD 1 0 - numbers.getD 0 0), "COMPARISON PROBLEM SOLVER: less than")
    else
      ("Error", "Could not parse comparison. Try: 'twice 50' or '10 more than 30'")

/-- `MathAI.solve_percentage_advanced` (source lines 278-338): a guard
demands at least two extracted numbers before any pattern branch runs. -/
def solve_percentage_advanced (p : ParsedQuery) : String × String :=
  let query := p.cleaned
  let numbers := p.numbers
  if numbers.length < 2 then
    ("Error", "Need at least 2 numbers for percentage problems")
  else if substr "of" query then
    (pyFloatStr (numbers.getD 0 0 / 100 * numbers.getD 1 0), "PERCENTAGE PROBLEM SOLVER: X% of Y")
  else if substr "increase" query || substr "raise" query || substr "add" query then
    let value := numbers.getD 0 0
    let percent := if 1 < numbers.length then numbers.getD 1 0 else numbers.getD 0 0
    (pyFloatStr (value + percent / 100 * value), "PERCENTAGE PROBLEM SOLVER: increase by X%")
  else if substr "decrease" query || substr "discount" query || substr "reduce" query then
    let value := numbers.getD 0 0
    let percent := if 1 < numbers.length then numbers.getD 1 0 else numbers.getD 0 0
    (pyFloatStr (value - percent / 100 * value), "PERCENTAGE PROBLEM SOLVER: decrease by X%")
  else
    (pyFloatStr (numbers.getD 0 0 / 100 * numbers.getD 1 0), "PERCENTAGE PROBLEM SOLVER: default X% of Y")


def replaceAux : Nat → List Char → List Char → List Char → List Char
  | 0, hay, _, _ => hay
  | _ + 1, [], _, _ => []
  | f + 1, c :: t, nd, rp =>
    if !nd.isEmpty && listStartsWith nd (c :: t) then rp ++ replaceAux f ((c :: t).drop nd.length) nd rp
    else c :: replaceAux f t nd rp

/-- Python `s.replace(old, new)`: left-to-right, non-overlapping. -/
def pyReplace (s old new : String) : String :=
  ⟨replaceAux (s.data.length + 1) s.data old.data new.data⟩

def splitSubAux : Nat → List Char → List Char → List Char → List (List Char)
  | 0, hay, _, acc => [acc.reverse ++ hay]
  | _ + 1, [], _, acc => [acc.reverse]
  | f + 1, c :: t, nd, acc =>
    if !nd.isEmpty && listStartsWith nd (c :: t) then
      acc.reverse :: splitSubAux f ((c :: t).drop nd.length) nd []
    else splitSubAux f t nd (c :: acc)

/-- Python `s.split(sep)` for a nonempty separator (no maxsplit). -/
def pySplit (s sep : String) : List String :=
  (splitSubAux (s.data.length + 1) s.data sep.data []).map fun l => ⟨l⟩

/-- `re.sub(r'(\d)([xy])', r'\1*\2', s)`: a single digit immediately before
`x` or `y` gets an explicit `*` inserted; scanning resumes after the
variable letter. -/
def subDigitVar : List Char → List Char
  | [] => []
  | [c] => [c]
  | a :: b :: t =>
    if a.isDigit && (b == 'x' || b == 'y') then a :: '*' :: b :: subDigitVar t
    else a :: subDigitVar (b :: t)

/-- Tokens of the expression fragment handed to the external SymPy parser. -/
inductive LTok
  | num (q : PyNum)
  | var (c : Char)
  | plus
  | minus
  | star
  | slash
deriving DecidableEq, Repr

def ltokenizeAux : Nat → List Char → Option (List LTok)
  | 0, _ => none
  | _ + 1, [] => some []
  | f + 1, c :: t =>
    if c.isWhitespace then ltokenizeAux f t
    else if c == '+' then (ltokenizeAux f t).map fun l => LTok.plus :: l
    else if c == '-' then (ltokenizeAux f t).map fun l => LTok.minus :: l
    else if c == '*' then (ltokenizeAux f t).map fun l => LTok.star :: l
    else if c == '/' then (ltokenizeAux f t).map fun l => LTok.slash :: l
    else if c == 'x' || c == 'y' then (ltokenizeAux f t).map fun l => LTok.var c :: l
    else if c.isDigit then
      let ds := (c :: t).takeWhile Char.isDigit
      let rest := (c :: t).dropWhile Char.isDigit
      match rest with
      | '.' :: r2 =>
        (ltokenizeAux f (r2.dropWhile Char.isDigit)).map fun l =>
          LTok.num (parseNumTok (ds ++ '.' :: r2.takeWhile Char.isDigit)) :: l
      | _ => (ltokenizeAux f rest).map fun l => LTok.num (parseNumTok ds) :: l
    else none

/-- Tokenize an expression string; `none` models the external parser
raising (unsupported character). -/
def ltokenize (s : String) : Option (List LTok) :=
  ltokenizeAux (s.data.length + 1) s.data

/-- A linear symbolic expression `a*x + b*y + c`, the fragment of SymPy
expressions the equation solver's inputs live in. -/
structure LinExpr where
  a : PyNum
  b : PyNum
  c : PyNum
deriving DecidableEq, Repr

def splitSignedTerms : List LTok → PyNum → List LTok → List (PyNum × List LTok)
  | [], sign, acc => [(sign, acc.reverse)]
  | .plus :: rest, sign, acc =>
    if acc.isEmpty then splitSignedTerms rest sign acc
    else (sign, acc.reverse) :: splitSignedTerms rest 1 []
  | .minus :: rest, sign, acc =>
    if acc.isEmpty then splitSignedTerms rest (-sign) acc
    else (sign, acc.reverse) :: splitSignedTerms rest (-1) []
  | t :: rest, sign, acc => splitSignedTerms rest sign (t :: acc)

def hasAdjacentStars : List LTok → Bool
  | .star :: .star :: _ => true
  | _ :: t => hasAdjacentStars t
  | [] => false

/-- Value of one signed product term; `none` when the term is empty, uses
division, or is not linear (outside the modelled SymPy fragment). -/
def evalTerm (sign : PyNum) (atoms : List LTok) : Option LinExpr :=
  if atoms.isEmpty || atoms.any (fun t => t == LTok.slash) then none
  else
    let core := atoms.filter fun t => t != LTok.star
    let coef := core.foldl (fun acc t => match t with | .num q => acc * q | _ => acc) sign
    match core.filter fun t => match t with | .var _ => true | _ => false with
    | [] => some ⟨0, 0, coef⟩
    | [.var c] => if c == 'x' then some ⟨coef, 0, 0⟩ else some ⟨0, coef, 0⟩
    | _ => none

def linAdd (e1 e2 : LinExpr) : LinExpr :=
  ⟨e1.a + e2.a, e1.b + e2.b, e1.c + e2.c⟩

/-- Modelled from the external SymPy `parse_expr(..., transformations='all')`
call on the linear fragment: sum of signed product terms over `x`, `y`. -/
def evalLinear (toks : List LTok) : Option LinExpr :=
  if hasAdjacentStars toks then none
  else
    (splitSignedTerms toks 1 []).foldl
      (fun acc st =>
        match acc, evalTerm st.1 st.2 with
        | some e, some t => some (linAdd e t)
        | _, _ => none)
      (some ⟨0, 0, 0⟩)

/-- Modelled behaviour of the external `sympy.solve(Eq(left, right))` call on
linear expressions: a unique rational root printed exactly when one variable
occurs, the empty list when the equality is constant, and a symbolic
dependent-solution rendering when both variables occur. -/
def sympy_linear_solutions (le re : LinExpr) : List String :=
  let dx := le.a - re.a
  let dy := le.b - re.b
  let dc := le.c - re.c
  if !dx.isZero && dy.isZero then [ratStr ((-dc) / dx)]
  else if dx.isZero && !dy.isZero then [ratStr ((-dc) / dy)]
  else if dx.isZero && dy.isZero then []
  else ["\x7bx: " ++ ratStr ((-dc) / dx) ++ " + " ++ ratStr ((-dy) / dx) ++ "*y\x7d"]

/-- `MathAI.solve_equation_advanced` (source lines 344-387): requires `=`,
strips filler words, two-way-unpacks the `=`-split (a ValueError caught by
the solver's own handler when the split has more than two parts), inserts
implicit multiplication, then parses and solves via SymPy; every exception
inside the body becomes a solver-local `Error` outcome. -/
def solve_equation_advanced (p : ParsedQuery) : String × String :=
  let query := p.cleaned
  if !substr "=" query then ("Error", "Equation must contain '=' sign")
  else
    let equation_str := pyStrip (pyReplace (pyReplace (pyReplace query "solve" "") "find x" "") "find y" "")
    match pySplit equation_str "=" with
    | [l, r] =>
      let left : String := ⟨subDigitVar (pyStrip l).data⟩
      let right : String := ⟨subDigitVar (pyStrip r).data⟩
      match ltokenize left, ltokenize right with
      | some lt, some rt =>
        match evalLinear lt, evalLinear rt with
        | some le, some re =>
          match sympy_linear_solutions le re with
          | [] => ("No solution", "EQUATION SOLVER: empty solution set")
          | s :: _ => (s, "EQUATION SOLVER: solved symbolically")
        | _, _ => ("Error", "Could not solve equation: parse error\nTry: 'solve 2x + 5 = 17'")
      | _, _ => ("Error", "Could not solve equation: parse error\nTry: 'solve 2x + 5 = 17'")
    | _ =>
      ("Error", "Could not solve equation: too many values to unpack (expected 2)\nTry: 'solve 2x + 5 = 17'")

def splitMultiAux : Nat → List Char → List Char → List (List Char)
  | 0, hay, acc => [acc.reverse ++ hay]
  | _ + 1, [], acc => [acc.reverse]
  | f + 1, c :: t, acc =>
    if listStartsWith "then".data (c :: t) then acc.reverse :: splitMultiAux f ((c :: t).drop 4) []
    else if listStartsWith "after that".data (c :: t) then acc.reverse :: splitMultiAux f ((c :: t).drop 10) []
    else if listStartsWith "next".data (c :: t) then acc.reverse :: splitMultiAux f ((c :: t).drop 4) []
    else if c == ',' then acc.reverse :: splitMultiAux f t []
    else splitMultiAux f t (c :: acc)

/-- `re.split(r'then|after that|next|,', query)`: leftmost match of the
first applicable alternative cuts the text. -/
def splitMulti (s : String) : List String :=
  (splitMultiAux (s.data.length + 1) s.data []).map fun l => ⟨l⟩

/-- One segment of `MathAI.solve_multi_step`'s loop (source lines 410-455):
keyword precedence add / subtract (both percent-aware) / multiply / divide,
a silent skip when no keyword or no number is present.  The division branch
has no zero guard in the source; a zero operand raises `ZeroDivisionError`,
embedded as `Except.error`. -/
def multiStepOne (result : PyNum) (stepRaw : String) : Except String PyNum :=
  let step := pyStrip stepRaw
  match scanNums step with
  | [] => .ok result
  | tok :: _ =>
    let value := parseNumTok tok
    if substr "add" step || substr "plus" step || substr "+" step then
      if substr "%" step || substr "percent" step then .ok (result + result * (value / 100))
      else .ok (result + value)
    else if substr "subtract" step || substr "minus" step || substr "-" step then
      if substr "%" step || substr "percent" step then .ok (result - result * (value / 100))
      else .ok (result - value)
    else if substr "multiply" step || substr "times" step || substr "*" step then
      .ok (result * value)
    else if substr "divide" step || substr "/" step then
      if value.isZero then .error "float division by zero"
      else .ok (result / value)
    else .ok result

/-- `MathAI.solve_multi_step` (source lines 393-458): the first extracted
number seeds an accumulator, each later split segment applies one
operation. -/
def solve_multi_step (p : ParsedQuery) : Except String (String × String) :=
  if p.numbers.isEmpty then .ok ("Error", "Need at least one starting number")
  else
    let start := p.numbers.getD 0 0
    let steps := (splitMulti p.cleaned).drop 1
    match steps.foldl
        (fun (acc : Except String PyNum) st =>
          match acc with
          | .error e => .error e
          | .ok r => multiStepOne r st)
        (Except.ok start) with
    | .error e => .error e
    | .ok r => .ok (pyFloatStr r, "MULTI-STEP PROBLEM SOLVER: chained accumulator")

/-- `MathAI.solve_average_advanced` (source lines 464-485): arithmetic mean
of all extracted numbers. -/
def solve_average_advanced (p : ParsedQuery) : String × String :=
  if p.numbers.length < 2 then ("Error", "Need at least 2 numbers to calculate average")
  else
    let total := p.numbers.foldl (fun a b => a + b) 0
    (pyFloatStr (total / (⟨(p.numbers.length : Int), 1⟩ : PyNum)), "AVERAGE CALCULATOR: sum over count")

/-- The word-stripping and operator-substitution preamble of
`MathAI.solve_arithmetic_advanced` (source lines 501-509). -/
def mungeArith (query : String) : String :=
  let c0 := pyReplace (pyReplace (pyReplace query "what" "") "is" "") "calculate" ""
  let c1 := pyStrip (pyReplace (pyReplace (pyReplace c0 "compute" "") "?" "") "the" "")
  let c2 := pyReplace (pyReplace c1 "plus" "+") "minus" "-"
  pyReplace (pyReplace c2 "times" "*") "divided by" "/"

def parseFactor : List LTok → Option (PyNum × List LTok)
  | .minus :: rest =>
    match parseFactor rest with
    | some (v, r) => some (-v, r)
    | none => none
  | .num q :: rest => some (q, rest)
  | _ => none

def parseTermAux : Nat → PyNum → List LTok → Option (PyNum × List LTok)
  | 0, _, _ => none
  | f + 1, acc, toks =>
    match toks with
    | .star :: rest =>
      match parseFactor rest with
      | some (v, r) => parseTermAux f (acc * v) r
      | none => none
    | .slash :: rest =>
      match parseFactor rest with
      | some (v, r) => if v.isZero then none else parseTermAux f (acc / v) r
      | none => none
    | .num q :: rest => parseTermAux f (acc * q) rest
    | _ => some (acc, toks)

def parseTerm (fuel : Nat) (toks : List LTok) : Option (PyNum × List LTok) :=
  match parseFactor toks with
  | some (v, r) => parseTermAux fuel v r
  | none => none

def parseExprAux : Nat → PyNum → List LTok → Option (PyNum × List LTok)
  | 0, _, _ => none
  | f + 1, acc, toks =>
    match toks with
    | .plus :: rest =>
      match parseTerm f rest with
      | some (v, r) => parseExprAux f (acc + v) r
      | none => none
    | .minus :: rest =>
      match parseTerm f rest with
      | some (v, r) => parseExprAux f (acc - v) r
      | none => none
    | _ => some (acc, toks)

/-- Modelled from the external SymPy `parse_expr(...).evalf()` on the plain
numeric fragment (numbers, `+ - * /`, implicit multiplication by
juxtaposition).  `none` stands for any exception on that path — unsupported
characters, leftover tokens, symbolic leftovers (`float(...)` raising) or
division by zero (`float(zoo)` raising) — which the source catches with a
bare `except`. -/
def arithEval (s : String) : Option PyNum :=
  match ltokenize s with
  | none => none
  | some toks =>
    if toks.any fun t => match t with | .var _ => true | _ => false then none
    else
      match parseTerm (toks.length + 1) toks with
      | some (v, rest) =>
        match parseExprAux (toks.length + 1) v rest with
        | some (v2, []) => some v2
        | _ => none
      | none => none

/-- `MathAI.solve_arithmetic_advanced` (source lines 491-528): munge the
text into an expression, evaluate it, and on any failure fall back to
summing every extracted number. -/
def solve_arithmetic_advanced (p : ParsedQuery) : String × String :=
  if p.numbers.length < 2 then ("Error", "Need at least 2 numbers for arithmetic")
  else
    match arithEval (mungeArith p.cleaned) with
    | some v => (pyFloatStr v, "ARITHMETIC SOLVER: parsed expression")
    | none =>
      (pyFloatStr (p.numbers.foldl (fun a b => a + b) 0),
        "ARITHMETIC SOLVER: could not parse expression, summing numbers")

/-- One entry of the session log (`MathAI.history`). -/
structure HistoryEntry where
  query : String
  result : String
  explanation : String
  ptype : String
  confidence : PyNum
deriving DecidableEq, Repr

/-- The mutable state of a `MathAI` instance: its session log. -/
structure MathAI where
  history : List HistoryEntry
deriving DecidableEq, Repr

/-- The solver routing of `MathAI.process_query` STEP 3 (source lines
66-79).  Only the multi-step solver can let an exception escape. -/
def dispatch_solver (ptype : String) (p : ParsedQuery) : Except String (String × String) :=
  if ptype == "percentage" then .ok (solve_percentage_advanced p)
  else if ptype == "equation" then .ok (solve_equation_advanced p)
  else if ptype == "rate" then .ok (solve_rate_problem p)
  else if ptype == "comparison" then .ok (solve_comparison_problem p)
  else if ptype == "multi_step" then solve_multi_step p
  else if ptype == "average" then .ok (solve_average_advanced p)
  else .ok (solve_arithmetic_advanced p)

/-- `MathAI.process_query` (source lines 50-98): empty/whitespace input
short-circuits with no log entry; an uncaught exception from the pipeline
body yields `("", error message, False)` with no log entry; otherwise the
outcome is logged and returned with success `True` — even when the solver
reported the `"Error"` result text. -/
def process_query (ai : MathAI) (query : String) : (String × String × Bool) × MathAI :=
  if pyStrip query == "" then (("", "Please enter a question.", false), ai)
  else
    let parsed := parse_input query
    let tc := classify_problem parsed
    match dispatch_solver tc.1 parsed with
    | .error e =>
      (("", "Error: " ++ e ++ "\n\nTry rephrasing your question with clear numbers and relationships.",
        false), ai)
    | .ok rexp =>
      let explanation := if PyNum.lt tc.2 (qn 8 10) then rexp.2 ++ confNote tc.2 else rexp.2
      ((rexp.1, explanation, true),
        { history := ai.history ++ [⟨query, rexp.1, explanation, tc.1, tc.2⟩] })

/-- `MathAI.get_history` (source lines 531-533): returns the log, touching
nothing. -/
def get_history (ai : MathAI) : List HistoryEntry × MathAI :=
  (ai.history, ai)

/-- `MathAI.clear_history` (source lines 535-537): empties the log. -/
def clear_history (_ai : MathAI) : MathAI :=
  { history := [] }

example : (parse_input "What is 20% of 150?").numbers = [qn 20 1, qn 150 1] := by decide

example : (solve_equation_advanced (parse_input "solve 2x + 5 = 17")).1 = "6" := by decide

example : (process_query ⟨[]⟩ "Start with 100, add 10%, then subtract 30").1.1 = "80.0" := by decide

example : (process_query ⟨[]⟩ "average of 10, 20, 30, 40").1.1 = "25.0" := by decide

example : (process_query ⟨[]⟩ "   ").1 = ("", "Please enter a question.", false) := by decide

/-- C7 counterexample: the comparison solver renders the Python float
`100.0`, so the result text is `"100.0"`, not the claimed `"100"`, on both
quoted inputs. -/
theorem claim_C7_counterexample :
    (solve_comparison_problem (parse_input "twice 50")).1 = "100.0"
    ∧ ¬(solve_comparison_problem (parse_input "twice 50")).1 = "100"
    ∧ (solve_comparison_problem (parse_input "half of 200")).1 = "100.0"
    ∧ ¬(solve_comparison_problem (parse_input "half of 200")).1 = "100" := by
  decide

/-- C7 (amended): `"twice 50"` and `"half of 200"` hit the multiplier table
(first matching keyword in table order scaling `numbers[0]`), both with
numeric value 100, rendered as the float string `"100.0"`. -/
theorem claim_C7 :
    (solve_comparison_problem (parse_input "twice 50")).1 = pyFloatStr (qn 50 1 * 2)
    ∧ (solve_comparison_problem (parse_input "half of 200")).1 = pyFloatStr (qn 200 1 * qn 1 2)
    ∧ pyFloatStr (qn 50 1 * 2) = "100.0"
    ∧ pyFloatStr (qn 200 1 * qn 1 2) = "100.0" := by
  decide

/-- C8 counterexample: `"the tax"` contains the letter `x` only inside the
word `tax` and no unknown-quantity phrase, yet `parse_input` sets
`has_variable` — the source tests `'x' in cleaned`, a substring test, not a
token test. -/
theorem claim_C8_counterexample :
    (parse_input "the tax").has_variable = true
    ∧ substr "unknown" (parse_input "the tax").cleaned = false
    ∧ substr "what number" (parse_input "the tax").cleaned = false
    ∧ substr "how many" (parse_input "the tax").cleaned = false
    ∧ substr "how much" (parse_input "the tax").cleaned = false := by
  decide

/-- C8 (amended): `has_variable` is true exactly when the normalized text
contains `x` or `y` as a substring anywhere — including inside longer words
such as `tax` — or one of the phrases `unknown`, `what number`, `how many`,
`how much`. -/
theorem claim_C8 (q : String) :
    (parse_input q).has_variable =
      (substr "x" (parse_input q).cleaned ||
        (substr "y" (parse_input q).cleaned ||
          (substr "unknown" (parse_input q).cleaned ||
            (substr "what number" (parse_input q).cleaned ||
              (substr "how many" (parse_input q).cleaned ||
                substr "how much" (parse_input q).cleaned))))) := by
  simp [parse_input, containsAny, List.any_cons, List.any_nil, Bool.or_assoc, Bool.or_false]

/-- C9: `get_history` does not mutate the log (two consecutive calls with
no intervening `process_query`/`clear_history` return identical sequences),
and `clear_history` followed by `get_history` returns the empty sequence. -/
theorem claim_C9 (ai : MathAI) :
    (get_history ai).2 = ai
    ∧ (get_history ((get_history ai).2)).1 = (get_history ai).1
    ∧ (get_history (clear_history ai)).1 = [] :=
  ⟨rfl, rfl, rfl⟩

/-- C10: `"Start with 10 then divide by 0"` classifies multi-step; the
division branch has no zero guard, so the solver raises
`ZeroDivisionError` (embedded as `Except.error`) instead of a solver-local
`Error` outcome, and the pipeline catch returns success `false` with empty
result text, leaving the session log unchanged for every starting state. -/
theorem claim_C10 :
    classify_problem (parse_input "Start with 10 then divide by 0") = ("multi_step", qn 95 100)
    ∧ solve_multi_step (parse_input "Start with 10 then divide by 0") =
        Except.error "float division by zero"
    ∧ ∀ ai : MathAI,
        process_query ai "Start with 10 then divide by 0" =
          (("", "Error: float division by zero\n\nTry rephrasing your question with clear numbers and relationships.",
            false), ai) := by
  refine ⟨by decide, rfl, fun ai => rfl⟩

/-- C2: any input whose normalized text contains a sequential marker
(`then`, `after that`, `first`, `next`, `finally`) and a percentage marker
(`%`) classifies as `multi_step` with confidence 0.95 — the sequential rule
is evaluated first and first match wins, so `percentage` is never
returned. -/
theorem claim_C2 (q : String)
    (hseq : containsAny ["then", "after that", "first", "next", "finally"] (parse_input q).cleaned = true)
    (_hpct : substr "%" (parse_input q).cleaned = true) :
    classify_problem (parse_input q) = ("multi_step", qn 95 100) := by
  simp [classify_problem, hseq]

/-- C2 witness: `"100 then 5%"` carries both markers and classifies
`multi_step` at confidence 0.95. -/
theorem claim_C2_witness :
    classify_problem (parse_input "100 then 5%") = ("multi_step", qn 95 100) :=
  claim_C2 "100 then 5%" (by decide) (by decide)

/-- C3: with at least two extracted numbers and `of` in the normalized
text, the percentage solver returns `(numbers[0]/100) * numbers[1]`; in
particular the pipeline answers `"What is 20% of 150?"` with `"30.0"`. -/
theorem claim_C3 (q : String)
    (hlen : 2 ≤ (parse_input q).numbers.length)
    (hof : substr "of" (parse_input q).cleaned = true) :
    (solve_percentage_advanced (parse_input q)).1 =
      pyFloatStr ((parse_input q).numbers.getD 0 0 / 100 * (parse_input q).numbers.getD 1 0)
    ∧ (process_query ⟨[]⟩ "What is 20% of 150?").1.1 = "30.0" := by
  constructor
  · simp only [solve_percentage_advanced]
    rw [if_neg (by omega), if_pos hof]
  · decide

/-- C3 witness: the quoted input has two numbers and the `of` phrasing, and
the solver's result text is the rendered `(20/100)*150`. -/
theorem claim_C3_witness :
    (solve_percentage_advanced (parse_input "What is 20% of 150?")).1 =
      pyFloatStr ((parse_input "What is 20% of 150?").numbers.getD 0 0 / 100 *
        (parse_input "What is 20% of 150?").numbers.getD 1 0)
    ∧ (process_query ⟨[]⟩ "What is 20% of 150?").1.1 = "30.0" :=
  claim_C3 "What is 20% of 150?" (by decide) (by decide)

/-- C6 counterexample: `"increase 50%"` is percentage-classified, contains
`increase`, no `of`, and exactly one extracted number — the claim predicts
`50 + (50/100)*50 = 75.0`, but the solver's two-number guard fires first
and the outcome is `Error`. -/
theorem claim_C6_counterexample :
    classify_problem (parse_input "increase 50%") = ("percentage", qn 95 100)
    ∧ (parse_input "increase 50%").numbers.length = 1
    ∧ substr "increase" (parse_input "increase 50%").cleaned = true
    ∧ substr "of" (parse_input "increase 50%").cleaned = false
    ∧ (solve_percentage_advanced (parse_input "increase 50%")).1 = "Error"
    ∧ pyFloatStr (qn 50 1 + qn 50 1 / 100 * qn 50 1) = "75.0" := by
  decide

/-- C6 (amended): with exactly one extracted number the percentage solver
stops at its operand guard and returns the `Error` outcome — the
self-referential `percent = numbers[0]` fallback is unreachable; when the
increase branch is reached (at least two numbers, no `of`,
`increase`/`raise`/`add` present) the percent is always `numbers[1]` and
the result is `numbers[0] + (numbers[1]/100)*numbers[0]`. -/
theorem claim_C6 (q : String) :
    ((parse_input q).numbers.length = 1 →
      (solve_percentage_advanced (parse_input q)).1 = "Error")
    ∧ (2 ≤ (parse_input q).numbers.length →
        substr "of" (parse_input q).cleaned = false →
        (substr "increase" (parse_input q).cleaned = true ∨
          substr "raise" (parse_input q).cleaned = true ∨
          substr "add" (parse_input q).cleaned = true) →
        (solve_percentage_advanced (parse_input q)).1 =
          pyFloatStr ((parse_input q).numbers.getD 0 0 +
            (parse_input q).numbers.getD 1 0 / 100 * (parse_input q).numbers.getD 0 0)) := by
  constructor
  · intro h1
    simp only [solve_percentage_advanced]
    rw [if_pos (by omega)]
  · intro hlen hof htrig
    simp only [solve_percentage_advanced]
    rw [if_neg (by omega), if_neg (by simp [hof]), if_pos (by rcases htrig with h | h | h <;> simp [h]),
      if_pos (by omega : 1 < (parse_input q).numbers.length)]

/-- C6 witness: the amended one-number branch evaluated at
`"increase 50%"`. -/
theorem claim_C6_witness :
    (solve_percentage_advanced (parse_input "increase 50%")).1 = "Error" :=
  (claim_C6 "increase 50%").1 (by decide)

/-- C4: with at least two extracted numbers and no multiplier-table keyword
in the normalized text, `more than` yields `numbers[1] + numbers[0]` and —
failing that branch — `less than` yields `numbers[1] - numbers[0]`: the
second extracted number is the base, the first the delta. -/
theorem claim_C4 (q : String)
    (hlen : 2 ≤ (parse_input q).numbers.length)
    (hk : ∀ kv ∈ comparison_keywords, substr kv.1 (parse_input q).cleaned = false) :
    (substr "more than" (parse_input q).cleaned = true →
      (solve_comparison_problem (parse_input q)).1 =
        pyFloatStr ((parse_input q).numbers.getD 1 0 + (parse_input q).numbers.getD 0 0))
    ∧ (substr "more than" (parse_input q).cleaned = false →
        substr "less than" (parse_input q).cleaned = true →
        (solve_comparison_problem (parse_input q)).1 =
          pyFloatStr ((parse_input q).numbers.getD 1 0 - (parse_input q).numbers.getD 0 0)) := by
  have hfind :
      comparison_keywords.find?
        (fun kv => substr kv.1 (parse_input q).cleaned && !(parse_input q).numbers.isEmpty) = none :=
    List.find?_eq_none.mpr (fun kv hkv => by simp [hk kv hkv])
  constructor
  · intro hm
    simp only [solve_comparison_problem, hfind]
    rw [if_pos (by simp [hm, hlen])]
  · intro hnm hl
    simp only [solve_comparison_problem, hfind]
    rw [if_neg (by simp [hnm]), if_pos (by simp [hl, hlen])]

/-- C4 witness: `"10 more than 30"` and `"5 less than 20"` hit the two
fallback branches with the reversed operand order. -/
theorem claim_C4_witness :
    (solve_comparison_problem (parse_input "10 more than 30")).1 =
      pyFloatStr ((parse_input "10 more than 30").numbers.getD 1 0 +
        (parse_input "10 more than 30").numbers.getD 0 0)
    ∧ (solve_comparison_problem (parse_input "5 less than 20")).1 =
        pyFloatStr ((parse_input "5 less than 20").numbers.getD 1 0 -
          (parse_input "5 less than 20").numbers.getD 0 0) :=
  ⟨(claim_C4 "10 more than 30" (by decide) (by decide)).1 (by decide),
    (claim_C4 "5 less than 20" (by decide) (by decide)).2 (by decide) (by decide)⟩

/-- C5 counterexample: `"solve x = 2 = 2"` is equation-classified and its
filler-stripped text contains two `=` characters; splitting on the first
`=` would solve `x = 2`, but the solver's two-way unpack of the full split
fails and the outcome is the `Error` text, not a symbolic solution. -/
theorem claim_C5_counterexample :
    classify_problem (parse_input "solve x = 2 = 2") = ("equation", qn 95 100)
    ∧ ((parse_input "solve x = 2 = 2").cleaned.data.filter (fun c => c == '=')).length = 2
    ∧ (solve_equation_advanced (parse_input "solve x = 2 = 2")).1 = "Error"
    ∧ (solve_equation_advanced (parse_input "solve x = 2")).1 = "2" := by
  decide

/-- C5 (amended): whenever the filler-stripped normalized text splits on
`=` into more than two parts (that is, contains more than one `=`), the
equation solver returns the solver-local `Error` outcome — the two-element
unpacking of the split raises a ValueError caught by the solver's handler —
rather than splitting on the first `=` and solving. -/
theorem claim_C5 (q : String)
    (h3 : 3 ≤ (pySplit (pyStrip (pyReplace (pyReplace (pyReplace (parse_input q).cleaned
      "solve" "") "find x" "") "find y" "")) "=").length) :
    (solve_equation_advanced (parse_input q)).1 = "Error" := by
  by_cases he : substr "=" (parse_input q).cleaned = true
  · simp only [solve_equation_advanced, he, Bool.not_true, Bool.false_eq_true, if_false]
    rcases hP : pySplit (pyStrip (pyReplace (pyReplace (pyReplace (parse_input q).cleaned
        "solve" "") "find x" "") "find y" "")) "=" with _ | ⟨a, _ | ⟨b, _ | ⟨c, rest⟩⟩⟩ <;>
      rw [hP] at h3 <;> simp_all
  · simp [solve_equation_advanced, he]

/-- C5 witness: the amended statement evaluated at `"solve x = 2 = 2"`. -/
theorem claim_C5_witness :
    (solve_equation_advanced (parse_input "solve x = 2 = 2")).1 = "Error" :=
  claim_C5 "solve x = 2 = 2" (by decide)

/-- On empty or whitespace-only input the pipeline short-circuits: fixed
message, success `false`, untouched state. -/
theorem process_query_empty (ai : MathAI) (q : String) (hq : pyStrip q = "") :
    process_query ai q = (("", "Please enter a question.", false), ai) := by
  have hq' : (pyStrip q == "") = true := by simp [hq]
  simp [process_query, hq']

/-- An exception escaping the dispatched solver is caught at the pipeline
level: empty result text, success `false`, untouched state. -/
theorem process_query_error (ai : MathAI) (q : String) (e : String) (hq : ¬pyStrip q = "")
    (hdisp : dispatch_solver (classify_problem (parse_input q)).1 (parse_input q) =
      Except.error e) :
    process_query ai q =
      (("", "Error: " ++ e ++ "\n\nTry rephrasing your question with clear numbers and relationships.",
        false), ai) := by
  have hq' : ¬((pyStrip q == "") = true) := by simp [hq]
  simp only [process_query, if_neg hq', hdisp]

/-- A completed pipeline run returns the solver's result text with success
`true` and appends exactly one entry recording it. -/
theorem process_query_ok (ai : MathAI) (q : String) (o : String × String) (hq : ¬pyStrip q = "")
    (hdisp : dispatch_solver (classify_problem (parse_input q)).1 (parse_input q) =
      Except.ok o) :
    ∃ ex, process_query ai q =
      ((o.1, ex, true),
        ⟨ai.history ++ [⟨q, o.1, ex, (classify_problem (parse_input q)).1,
          (classify_problem (parse_input q)).2⟩]⟩) := by
  have hq' : ¬((pyStrip q == "") = true) := by simp [hq]
  refine ⟨if PyNum.lt (classify_problem (parse_input q)).2 (qn 8 10) then
    o.2 ++ confNote (classify_problem (parse_input q)).2 else o.2, ?_⟩
  simp only [process_query, if_neg hq', hdisp]

/-- C1: `process_query` appends exactly one log entry exactly when it
returns success `true`; it returns success `true` whenever the pipeline
completes (the dispatched solver returns an outcome, even `"Error"`), and
on empty/whitespace input or an uncaught solver exception it returns
success `false` with empty result text and an unchanged session log. -/
theorem claim_C1 (ai : MathAI) (q : String) :
    ((process_query ai q).1.2.2 = true ↔
      ∃ e, (process_query ai q).2.history = ai.history ++ [e])
    ∧ ((process_query ai q).1.2.2 = false →
        (process_query ai q).1.1 = "" ∧ (process_query ai q).2 = ai)
    ∧ (pyStrip q = "" → (process_query ai q).1.2.2 = false)
    ∧ (∀ o, pyStrip q ≠ "" →
        dispatch_solver (classify_problem (parse_input q)).1 (parse_input q) = Except.ok o →
        (process_query ai q).1.2.2 = true ∧ (process_query ai q).1.1 = o.1)
    ∧ (∀ e, dispatch_solver (classify_problem (parse_input q)).1 (parse_input q) = Except.error e →
        (process_query ai q).1.2.2 = false ∧ (process_query ai q).1.1 = ""
          ∧ (process_query ai q).2 = ai) := by
  by_cases hq : pyStrip q = ""
  · rw [process_query_empty ai q hq]
    refine ⟨?_, fun _ => ⟨rfl, rfl⟩, fun _ => rfl, fun o hne _ => absurd hq hne,
      fun e _ => ⟨rfl, rfl, rfl⟩⟩
    simp
  · rcases hdisp : dispatch_solver (classify_problem (parse_input q)).1 (parse_input q) with e | o
    · rw [process_query_error ai q e hq hdisp]
      refine ⟨by simp, fun _ => ⟨rfl, rfl⟩, fun h => absurd h hq, fun o _ ho => ?_,
        fun e2 _ => ⟨rfl, rfl, rfl⟩⟩
      exact absurd ho (by simp)
    · obtain ⟨ex, hpe⟩ := process_query_ok ai q o hq hdisp
      rw [hpe]
      refine ⟨⟨fun _ => ⟨_, rfl⟩, fun _ => rfl⟩, fun h => by simp at h, fun h => absurd h hq,
        fun o2 _ ho2 => ?_, fun e2 he2 => absurd he2 (by simp)⟩
      injection ho2 with h2
      subst h2
      exact ⟨rfl, rfl⟩

/-- C1 witness: `"increase 50%"` completes the pipeline with a solver-local
`Error` result text, yet success is `true` and exactly one entry is
appended to an initially empty log; `"Start with 10 then divide by 0"`
raises an uncaught solver exception, so success is `false`, the result text
empty and the log untouched. -/
theorem claim_C1_witness :
    (process_query ⟨[]⟩ "increase 50%").1.2.2 = true
    ∧ (process_query ⟨[]⟩ "increase 50%").1.1 = "Error"
    ∧ (∃ e, (process_query ⟨[]⟩ "increase 50%").2.history = [] ++ [e])
    ∧ (process_query ⟨[]⟩ "Start with 10 then divide by 0").1.2.2 = false
    ∧ (process_query ⟨[]⟩ "Start with 10 then divide by 0").1.1 = ""
    ∧ (process_query ⟨[]⟩ "Start with 10 then divide by 0").2 = ⟨[]⟩ := by
  have h := (claim_C1 ⟨[]⟩ "increase 50%").2.2.2.1
    (solve_percentage_advanced (parse_input "increase 50%")) (by decide) rfl
  have h2 := ((claim_C1 ⟨[]⟩ "increase 50%").1).mp h.1
  have h3 := (claim_C1 ⟨[]⟩ "Start with 10 then divide by 0").2.2.2.2
    "float division by zero" rfl
  exact ⟨h.1, h.2.trans (by decide), h2, h3.1, h3.2.1, h3.2.2⟩
